import Mathlib

/-!
Verification of the Talon event-delivery client (@sygnl/talon).

This file gives a shallow embedding of the parts of the source that the
specification's claims are about:

* `Talon.TransportState` and the two transports' `setState` logic
  (src/transports/WebSocketTransport.ts, src/transports/WebhookTransport.ts);
* the WebSocket transport's reconnect/backoff state machine, message queue,
  queue flush and send path (WebSocketTransport.ts);
* the Webhook transport's retry loop around `sendRequest` (WebhookTransport.ts);
* the client's dispatcher: handler map, `on`/`once`/`off`, `handleMessage`,
  `handleStateChange`, `handleError`, `cleanup` (TalonClient.ts).

Conventions of the embedding:

* handlers and observers are identified by natural-number ids; a handler's
  behaviour is reduced to what the claims can see: it is invoked (recorded in
  a ghost log) and it either returns normally or throws, which we capture
  with a boolean flag attached to the registered entry;
* timers are modelled by recording the pending delay (`reconnectTimeout`)
  and by an explicit timer-fire event, matching the single-threaded
  callback model of the source;
* the wall clock and `Math.random` are explicit parameters;
* the underlying socket write and the HTTP fetch are oracles supplied as
  function arguments, so a theorem can quantify over every possible
  success/failure pattern of the environment;
* message payloads (`Record<string, unknown>` in the source) are opaque
  values, modelled as `Nat`.
-/

namespace Talon

/-- Transport connection state, from src/types.ts:
`disconnected | connecting | connected | reconnecting | error`. -/
inductive TransportState where
  | disconnected
  | connecting
  | connected
  | reconnecting
  | error
deriving DecidableEq, Repr

/-- Outbound message envelope (src/types.ts `OutboundMessage`); the `data`
payload is opaque to the transports, so it is modelled as a `Nat` handle. -/
structure OutboundMessage where
  type : String
  data : Nat
  id : Option String := none
  timestamp : Option Nat := none
deriving DecidableEq, Repr

/-- Inbound message envelope (src/types.ts `InboundMessage`); the dispatcher
only reads `type` and `data`, the payload is again an opaque handle. -/
structure InboundMessage where
  type : String
  data : Nat
deriving DecidableEq, Repr

end Talon

namespace Talon.WS

/-- State of a `WebSocketTransport` instance
(src/transports/WebSocketTransport.ts, fields at lines 49-63).

`wsAttached` models `this.ws !== null`; `reconnectTimeout` records the delay
of the pending reconnect timer (`none` = no pending timer).  `stateHandlers`
and `errorHandlers` are the registered observer ids in registration order.
The fields `wire`, `attemptLog`, `stateNotifs`, `errNotifs` are ghost logs:
messages successfully written to the socket, messages for which a socket
write was attempted, state-change notifications delivered, and error
notifications delivered. -/
structure WSState where
  state : TransportState
  autoReconnect : Bool
  reconnectDelay : Nat
  maxReconnectAttempts : Nat
  reconnectAttempts : Nat
  reconnectTimeout : Option Nat
  wsAttached : Bool
  messageQueue : List OutboundMessage
  stateHandlers : List Nat
  errorHandlers : List Nat
  wire : List OutboundMessage
  attemptLog : List OutboundMessage
  stateNotifs : List (Nat × TransportState)
  errNotifs : List (Nat × String)
deriving DecidableEq, Repr

/-- `WebSocketTransport.setState` (lines 260-273): a no-op when the state is
unchanged, otherwise updates the state and notifies every registered
state-change observer once, in registration order (each invocation is wrapped
in try/catch in the source, so every observer is reached). -/
def setState (s : TransportState) (st : WSState) : WSState :=
  if st.state = s then st
  else
    { st with
      state := s
      stateNotifs := st.stateNotifs ++ st.stateHandlers.map (fun h => (h, s)) }

/-- `WebSocketTransport.emitError` (lines 278-286): notifies every registered
error observer once, each invocation wrapped in try/catch. -/
def emitError (e : String) (st : WSState) : WSState :=
  { st with errNotifs := st.errNotifs ++ st.errorHandlers.map (fun h => (h, e)) }

/-- `WebSocketTransport.send` (lines 150-168).  The socket write (including
`JSON.stringify`) is the oracle `oracle`: `Except.ok` means the write
succeeded, `Except.error e` means serialization or write threw `e`.  Returns
the new state and the error propagated to the caller, if any. -/
def send (oracle : OutboundMessage → Except String Unit) (st : WSState)
    (m : OutboundMessage) : WSState × Option String :=
  if st.state ≠ TransportState.connected ∨ st.wsAttached = false then
    ({ st with messageQueue := st.messageQueue ++ [m] }, none)
  else
    match oracle m with
    | Except.ok _ =>
        ({ st with
            wire := st.wire ++ [m]
            attemptLog := st.attemptLog ++ [m] }, none)
    | Except.error e =>
        (emitError e { st with attemptLog := st.attemptLog ++ [m] }, some e)

/-- One flush step: `this.send(message).catch(log)` inside
`flushMessageQueue` (lines 250-254) — the propagated error is swallowed and
only logged. -/
def flushOne (oracle : OutboundMessage → Except String Unit) (st : WSState)
    (m : OutboundMessage) : WSState :=
  (send oracle st m).1

/-- `WebSocketTransport.flushMessageQueue` (lines 241-255): snapshot the
queue, clear it, then send each snapshot entry in order, logging (and
dropping) per-entry failures. -/
def flushMessageQueue (oracle : OutboundMessage → Except String Unit)
    (st : WSState) : WSState :=
  if st.messageQueue = [] then st
  else st.messageQueue.foldl (flushOne oracle) { st with messageQueue := [] }

/-- `WebSocketTransport.scheduleReconnect` (lines 225-236), synchronous part:
arms the reconnect timer with delay `reconnectDelay * 2 ^ reconnectAttempts`. -/
def scheduleReconnect (st : WSState) : WSState :=
  { st with reconnectTimeout := some (st.reconnectDelay * 2 ^ st.reconnectAttempts) }

/-- `WebSocketTransport.handleDisconnect` (lines 209-220): clears the socket
reference; if auto-reconnect is on and the attempt budget not exhausted,
enters `reconnecting` and schedules a retry, otherwise settles into
`disconnected`. -/
def handleDisconnect (st : WSState) : WSState :=
  let st1 : WSState := { st with wsAttached := false }
  if st1.autoReconnect = true ∧
      (st1.maxReconnectAttempts = 0 ∨ st1.reconnectAttempts < st1.maxReconnectAttempts) then
    scheduleReconnect (setState TransportState.reconnecting st1)
  else
    setState TransportState.disconnected st1

/-- Synchronous part of `WebSocketTransport.connect` (lines 78-89): a no-op
when already `connected` or `connecting`; otherwise enters `connecting` and
creates the socket object (`this.ws = new WebSocket(url)`). -/
def connectCall (st : WSState) : WSState :=
  if st.state = TransportState.connected ∨ st.state = TransportState.connecting then st
  else { setState TransportState.connecting st with wsAttached := true }

/-- The `onopen` callback (lines 96-106): enter `connected`, reset the
attempt counter to zero, flush the queued messages. -/
def onOpen (oracle : OutboundMessage → Except String Unit) (st : WSState) : WSState :=
  let st1 := setState TransportState.connected st
  let st2 : WSState := { st1 with reconnectAttempts := 0 }
  flushMessageQueue oracle st2

/-- The reconnect timer firing (callback at lines 229-235): increments the
attempt counter and calls `connect()` again.  When no timer is pending
nothing can fire, so the state is returned unchanged. -/
def timerFire (st : WSState) : WSState :=
  match st.reconnectTimeout with
  | none => st
  | some _ =>
      connectCall
        { st with
            reconnectTimeout := none
            reconnectAttempts := st.reconnectAttempts + 1 }

/-- `WebSocketTransport.disconnect` (lines 133-148): synchronous; disables
auto-reconnect, cancels any pending reconnect timer, closes and drops the
socket, and forces the state to `disconnected`. -/
def disconnect (st : WSState) : WSState :=
  let st1 : WSState :=
    { st with autoReconnect := false, reconnectTimeout := none, wsAttached := false }
  setState TransportState.disconnected st1

/-- Events that can still reach a transport after an explicit
`disconnect()`: a close callback from the old socket object, and a reconnect
timer firing (only possible while a timer is pending). -/
inductive PostEv where
  | closeEv
  | timerEv
deriving DecidableEq, Repr

/-- Step function for post-disconnect events. -/
def postStep (st : WSState) : PostEv → WSState
  | PostEv.closeEv => handleDisconnect st
  | PostEv.timerEv => timerFire st

end Talon.WS

namespace Talon.WH

/-- State of a `WebhookTransport` instance
(src/transports/WebhookTransport.ts, fields at lines 69-81), restricted to
the fields the claims depend on, plus ghost notification logs. -/
structure WHState where
  state : TransportState
  retry : Bool
  maxRetries : Nat
  retryDelay : Nat
  stateHandlers : List Nat
  errorHandlers : List Nat
  stateNotifs : List (Nat × TransportState)
  errNotifs : List (Nat × String)
deriving DecidableEq, Repr

/-- `WebhookTransport.setState` (lines 199-212), identical in structure to
the WebSocket transport's. -/
def setState (s : TransportState) (st : WHState) : WHState :=
  if st.state = s then st
  else
    { st with
      state := s
      stateNotifs := st.stateNotifs ++ st.stateHandlers.map (fun h => (h, s)) }

/-- `WebhookTransport.emitError` (lines 217-225). -/
def emitError (e : String) (st : WHState) : WHState :=
  { st with errNotifs := st.errNotifs ++ st.errorHandlers.map (fun h => (h, e)) }

/-- Outcome of one `fetch` in `sendRequest` (lines 163-194): the response
status when fetch resolves, an abort by the per-attempt timeout, or a
network-level rejection with a message. -/
inductive WAttempt where
  | status (code : Nat)
  | timeoutAbort
  | netFail (msg : String)
deriving DecidableEq, Repr

/-- The error message `sendRequest` throws for a failed attempt:
a non-2xx status throws an HTTP error, an abort is mapped to a timeout
error, and another rejection is re-thrown as is. -/
def attemptError (a : WAttempt) : String :=
  match a with
  | WAttempt.status c => "HTTP " ++ toString c
  | WAttempt.timeoutAbort => "Request timeout"
  | WAttempt.netFail m => m

/-- `WebhookTransport.sendRequest` (lines 163-194) as a function of the
attempt outcome: succeeds exactly when the response status is in 200-299
(`response.ok`), otherwise throws the corresponding error. -/
def sendRequest (a : WAttempt) : Except String Unit :=
  match a with
  | WAttempt.status c =>
      if 200 ≤ c ∧ c ≤ 299 then Except.ok () else Except.error (attemptError a)
  | WAttempt.timeoutAbort => Except.error (attemptError a)
  | WAttempt.netFail m => Except.error (attemptError (WAttempt.netFail m))

/-- The retry loop inside `WebhookTransport.send` (lines 120-135).
`oracle k` is the outcome of the k-th delivery attempt (0-indexed).
`attempt` is the current attempt index and the second argument the number of
attempts still allowed.  Returns
(attempts actually made, success flag, last error when all failed,
backoff delays waited between attempts). -/
def attemptLoop (oracle : Nat → WAttempt) (retryDelay : Nat) :
    Nat → Nat → Nat × Bool × Option String × List Nat
  | _, 0 => (0, false, none, [])
  | attempt, rem + 1 =>
      match sendRequest (oracle attempt) with
      | Except.ok _ => (1, true, none, [])
      | Except.error e =>
          if rem = 0 then (1, false, some e, [])
          else
            let d := retryDelay * 2 ^ attempt
            let r := attemptLoop oracle retryDelay (attempt + 1) rem
            (r.1 + 1, r.2.1, r.2.2.1, d :: r.2.2.2)

/-- Result of one `WebhookTransport.send` call: the state afterwards, the
number of attempts made, whether some attempt succeeded, the error thrown to
the caller (if any), and the backoff delays taken. -/
structure WHSendOut where
  st : WHState
  attemptsUsed : Nat
  success : Bool
  thrown : Option String
  delays : List Nat
deriving DecidableEq, Repr

/-- `WebhookTransport.send` (lines 112-142): throws immediately when not
connected; otherwise makes up to `maxRetries + 1` attempts when retry is
enabled and exactly one otherwise, stopping at the first success; when every
attempt fails, the last error is emitted to the error observers and thrown. -/
def send (oracle : Nat → WAttempt) (st : WHState) : WHSendOut :=
  if st.state ≠ TransportState.connected then
    { st := st, attemptsUsed := 0, success := false,
      thrown := some "Transport not connected", delays := [] }
  else
    let attempts := if st.retry then st.maxRetries + 1 else 1
    let r := attemptLoop oracle st.retryDelay 0 attempts
    match r.2.2.1, r.2.1 with
    | some e, false =>
        { st := emitError e st, attemptsUsed := r.1, success := false,
          thrown := some e, delays := r.2.2.2 }
    | _, _ =>
        { st := st, attemptsUsed := r.1, success := r.2.1,
          thrown := none, delays := r.2.2.2 }

end Talon.WH

namespace Talon

/-- A handler entry in the client's per-event-type handler set
(TalonClient.ts).  A `plain` entry is a handler registered with `on`; an
`onceWrap` entry is the wrapped handler that `once` registers (the wrapper
calls the inner handler, then unsubscribes itself).  `hid` identifies the
caller's handler; `throws` says whether invoking it throws. -/
inductive HEntry where
  | plain (hid : Nat) (throws : Bool)
  | onceWrap (hid : Nat) (throws : Bool)
deriving DecidableEq, Repr

/-- The caller-handler id of an entry. -/
def entryId : HEntry → Nat
  | HEntry.plain hid _ => hid
  | HEntry.onceWrap hid _ => hid

/-- Whether invoking the entry's handler throws. -/
def entryThrows : HEntry → Bool
  | HEntry.plain _ b => b
  | HEntry.onceWrap _ b => b

/-- The client's `eventHandlers` map: event-type string to the registered
entries in registration order (a JS `Set` iterates in insertion order). -/
abbrev HandlerMap := List (String × List HEntry)

/-- `this.eventHandlers.get(t)`. -/
def lookupType (t : String) (m : HandlerMap) : Option (List HEntry) :=
  match m.find? (fun p => p.1 = t) with
  | none => none
  | some p => some p.2

/-- `this.eventHandlers.set(t, hs)` (overwrites or appends the binding). -/
def setType (t : String) (hs : List HEntry) : HandlerMap → HandlerMap
  | [] => [(t, hs)]
  | p :: rest => if p.1 = t then (t, hs) :: rest else p :: setType t hs rest

/-- `this.eventHandlers.delete(t)`. -/
def deleteType (t : String) (m : HandlerMap) : HandlerMap :=
  m.filter (fun p => p.1 ≠ t)

/-- State of a `TalonClient` instance: the dispatcher map and the three
transport subscriptions taken out in the constructor (lines 361-363),
modelled as flags that say whether the client's bound `handleMessage`,
`handleStateChange`, `handleError` are still registered with the transport. -/
structure ClientState where
  eventHandlers : HandlerMap
  msgSub : Bool
  stateSub : Bool
  errSub : Bool
deriving DecidableEq, Repr

/-- A freshly constructed client: empty handler map, all three transport
subscriptions in place (TalonClient constructor). -/
def emptyClient : ClientState :=
  { eventHandlers := [], msgSub := true, stateSub := true, errSub := true }

/-- `TalonClient.on(eventType, handler)` registration (lines 431-437):
creates the set if absent and adds the entry (a JS `Set` ignores a
duplicate add). -/
def clientOn (t : String) (e : HEntry) (cs : ClientState) : ClientState :=
  let hs := (lookupType t cs.eventHandlers).getD []
  let hs1 := if e ∈ hs then hs else hs ++ [e]
  { cs with eventHandlers := setType t hs1 cs.eventHandlers }

/-- The unsubscribe closure returned by `on` (lines 440-449): removes
exactly that entry, and deletes the whole type binding once its set becomes
empty. -/
def clientUnsub (t : String) (e : HEntry) (cs : ClientState) : ClientState :=
  match lookupType t cs.eventHandlers with
  | none => cs
  | some hs =>
      let hs1 := hs.erase e
      if hs1 = [] then { cs with eventHandlers := deleteType t cs.eventHandlers }
      else { cs with eventHandlers := setType t hs1 cs.eventHandlers }

/-- `TalonClient.off(eventType)` (lines 468-471): drops every handler for
the type. -/
def clientOff (t : String) (cs : ClientState) : ClientState :=
  { cs with eventHandlers := deleteType t cs.eventHandlers }

/-- `TalonClient.once(eventType, handler)` (lines 455-463): registers the
wrapping entry via `on`. -/
def clientOnce (t : String) (hid : Nat) (throws : Bool) (cs : ClientState) :
    ClientState :=
  clientOn t (HEntry.onceWrap hid throws) cs

/-- The handler loop of `TalonClient.handleMessage` (lines 495-501): each
handler invocation is wrapped in try/catch, so every entry of the snapshot
is invoked even when an earlier one throws.  A non-throwing `onceWrap` entry
unsubscribes itself after its inner handler returns; a throwing `onceWrap`
entry propagates before the unsubscribe runs, so it stays registered (the
exception is then caught by `handleMessage`).  Returns the new client state
and the invocation log (handler id, payload) in invocation order. -/
def runDispatch (t : String) (d : Nat) (cs : ClientState) :
    List HEntry → ClientState × List (Nat × Nat)
  | [] => (cs, [])
  | e :: rest =>
      match e with
      | HEntry.plain hid _ =>
          let r := runDispatch t d cs rest
          (r.1, (hid, d) :: r.2)
      | HEntry.onceWrap hid throws =>
          if throws then
            let r := runDispatch t d cs rest
            (r.1, (hid, d) :: r.2)
          else
            let cs1 := clientUnsub t (HEntry.onceWrap hid throws) cs
            let r := runDispatch t d cs1 rest
            (r.1, (hid, d) :: r.2)

/-- `TalonClient.handleMessage` (lines 490-505): looks up the handlers for
the message's type; when present and non-empty, dispatches the payload to
each of them with per-handler try/catch. -/
def handleMessage (m : InboundMessage) (cs : ClientState) :
    ClientState × List (Nat × Nat) :=
  match lookupType m.type cs.eventHandlers with
  | none => (cs, [])
  | some hs =>
      if 0 < hs.length then runDispatch m.type m.data cs hs else (cs, [])

/-- Sequential delivery of a list of inbound messages to the client
(single-threaded callback model), accumulating the invocation log. -/
def deliverAll (msgs : List InboundMessage) (cs : ClientState) :
    ClientState × List (Nat × Nat) :=
  match msgs with
  | [] => (cs, [])
  | m :: rest =>
      let r1 := handleMessage m cs
      let r2 := deliverAll rest r1.1
      (r2.1, r1.2 ++ r2.2)

/-- The handler loop of `TalonClient.handleStateChange` and
`TalonClient.handleError` (lines 514-517 and 527-530):
`handlers.forEach((handler) => handler(...))` with NO try/catch, so a
throwing handler aborts the loop and the exception escapes to the caller
(the transport's observer loop).  Returns the new client state, the ids
invoked in order, and whether an exception escaped. -/
def runReserved (t : String) (cs : ClientState) :
    List HEntry → ClientState × List Nat × Bool
  | [] => (cs, [], false)
  | e :: rest =>
      match e with
      | HEntry.plain hid throws =>
          if throws then (cs, [hid], true)
          else
            let r := runReserved t cs rest
            (r.1, hid :: r.2.1, r.2.2)
      | HEntry.onceWrap hid throws =>
          if throws then (cs, [hid], true)
          else
            let cs1 := clientUnsub t (HEntry.onceWrap hid throws) cs
            let r := runReserved t cs1 rest
            (r.1, hid :: r.2.1, r.2.2)

/-- The reserved event type the client republishes state changes on. -/
def reservedStateType : String := "_state_change"

/-- The reserved event type the client republishes transport errors on. -/
def reservedErrorType : String := "_error"

/-- `TalonClient.handleStateChange` (lines 510-518): re-emits the transport
state change to the handlers registered for the reserved type, without any
per-handler exception containment. -/
def handleStateChange (cs : ClientState) : ClientState × List Nat × Bool :=
  match lookupType reservedStateType cs.eventHandlers with
  | none => (cs, [], false)
  | some hs => runReserved reservedStateType cs hs

/-- `TalonClient.handleError` (lines 523-531): re-emits the transport error
to the handlers registered for the reserved type, without any per-handler
exception containment. -/
def handleError (cs : ClientState) : ClientState × List Nat × Bool :=
  match lookupType reservedErrorType cs.eventHandlers with
  | none => (cs, [], false)
  | some hs => runReserved reservedErrorType cs hs

/-- A state-change observer registered with a transport: either an external
observer (with a throws flag) or the client's bound `handleStateChange`. -/
inductive TObs where
  | ext (oid : Nat) (throws : Bool)
  | client (oid : Nat)
deriving DecidableEq, Repr

/-- The id of a transport-level observer. -/
def obsId : TObs → Nat
  | TObs.ext oid _ => oid
  | TObs.client oid => oid

/-- The transport's state-observer loop (`setState`, WebSocketTransport.ts
lines 266-272) with the client as one of the observers: each observer
invocation is wrapped in try/catch, so an exception — including one escaping
the client's reserved-handler loop — is caught and logged, and the remaining
observers still run.  Returns the client state, the transport-level
invocation log and the client-level (reserved-handler) invocation log. -/
def notifyStateObs (cs : ClientState) :
    List TObs → ClientState × List Nat × List Nat
  | [] => (cs, [], [])
  | TObs.ext oid _ :: rest =>
      let r := notifyStateObs cs rest
      (r.1, oid :: r.2.1, r.2.2)
  | TObs.client oid :: rest =>
      let rc := handleStateChange cs
      let r := notifyStateObs rc.1 rest
      (r.1, oid :: r.2.1, rc.2.1 ++ r.2.2)

/-- The transport's `setState` with the client subscribed among the
observers: the no-op transition is suppressed, otherwise every observer is
notified under try/catch. -/
def setStateWithClient (s cur : TransportState) (obs : List TObs)
    (cs : ClientState) : TransportState × ClientState × List Nat × List Nat :=
  if cur = s then (cur, cs, [], [])
  else
    let r := notifyStateObs cs obs
    (s, r.1, r.2.1, r.2.2)

/-- `TalonClient.cleanup` (lines 536-541): removes the three transport
subscriptions and clears the handler map. -/
def cleanup (_cs : ClientState) : ClientState :=
  { eventHandlers := [], msgSub := false, stateSub := false, errSub := false }

/-- `TalonClient.disconnect` (lines 383-386), client-side effect:
`transport.disconnect()` then `cleanup()`. -/
def clientDisconnect (cs : ClientState) : ClientState :=
  cleanup cs

/-- Operations on a client after construction: registrations, `off`,
`connect` (which only touches the transport), and deliveries arriving from
the transport (an inbound message, a state change, an error), which reach
the client only while the corresponding subscription is in place. -/
inductive ClientOp where
  | onEv (t : String) (e : HEntry)
  | offEv (t : String)
  | connectEv
  | inboundEv (m : InboundMessage)
  | stateEv
  | errorEv
deriving DecidableEq, Repr

/-- Step function over client operations, accumulating the ids of every
handler invocation made through the dispatcher. -/
def clientStep (p : ClientState × List Nat) (op : ClientOp) :
    ClientState × List Nat :=
  match op with
  | ClientOp.onEv t e => (clientOn t e p.1, p.2)
  | ClientOp.offEv t => (clientOff t p.1, p.2)
  | ClientOp.connectEv => p
  | ClientOp.inboundEv m =>
      if p.1.msgSub then
        let r := handleMessage m p.1
        (r.1, p.2 ++ r.2.map Prod.fst)
      else p
  | ClientOp.stateEv =>
      if p.1.stateSub then
        let r := handleStateChange p.1
        (r.1, p.2 ++ r.2.1)
      else p
  | ClientOp.errorEv =>
      if p.1.errSub then
        let r := handleError p.1
        (r.1, p.2 ++ r.2.1)
      else p

/-- `TalonClient.generateId` (lines 546-548): a time-based head plus a
random suffix; `now` is `Date.now()` and `rand` the random base-36 digits. -/
def generateId (now : Nat) (rand : String) : String :=
  "msg_" ++ toString now ++ "_" ++ rand

/-- `TalonClient.send` (lines 403-413): builds the one outbound envelope
handed to `transport.send`.  `nowId` and `nowTs` are the two `Date.now()`
reads (id then timestamp), `rand` the random suffix, `ev` the caller's event
object. -/
def clientSend (nowId nowTs : Nat) (rand : String) (ev : Nat) :
    List OutboundMessage :=
  [{ type := "event", data := ev,
     id := some (generateId nowId rand),
     timestamp := some nowTs }]

/-- Whether the socket write oracle accepts a message. -/
def WS.sendOk (oracle : OutboundMessage → Except String Unit)
    (m : OutboundMessage) : Bool :=
  match oracle m with
  | Except.ok _ => true
  | Except.error _ => false

/-- Whether the k-th webhook delivery attempt succeeds (`response.ok`). -/
def WH.reqOk (oracle : Nat → WH.WAttempt) (k : Nat) : Bool :=
  match WH.sendRequest (oracle k) with
  | Except.ok _ => true
  | Except.error _ => false

/-- A bare outbound message with the given type/payload. -/
def demoMsg (t : String) (d : Nat) : OutboundMessage := { type := t, data := d }

/-- A socket-transport state mid-handshake with three queued messages. -/
def demoWS : WS.WSState :=
  { state := TransportState.connecting, autoReconnect := true,
    reconnectDelay := 1000, maxReconnectAttempts := 0, reconnectAttempts := 3,
    reconnectTimeout := none, wsAttached := true,
    messageQueue := [demoMsg "a" 1, demoMsg "b" 2, demoMsg "c" 3],
    stateHandlers := [10], errorHandlers := [20],
    wire := [], attemptLog := [], stateNotifs := [], errNotifs := [] }

/-- A socket-write oracle that rejects exactly payload 2. -/
def demoWriteOracle : OutboundMessage → Except String Unit :=
  fun m => if m.data = 2 then Except.error "write failed" else Except.ok ()

/-- A connected socket-transport state with one reconnect attempt already
made and a budget of two. -/
def demoWS3 : WS.WSState :=
  { demoWS with
    state := TransportState.connected, maxReconnectAttempts := 2,
    reconnectAttempts := 1, messageQueue := [] }

/-- A disconnected socket-transport state (socket dropped). -/
def demoWS6 : WS.WSState :=
  { demoWS with
    state := TransportState.disconnected, wsAttached := false,
    messageQueue := [] }

/-- A connected socket-transport state with an attached socket and an empty
queue. -/
def demoWS6b : WS.WSState :=
  { demoWS with state := TransportState.connected, messageQueue := [] }

/-- A connected webhook-transport state with retry enabled,
`maxRetries = 3`, and one registered error observer. -/
def demoWH : WH.WHState :=
  { state := TransportState.connected, retry := true, maxRetries := 3,
    retryDelay := 10, stateHandlers := [], errorHandlers := [4],
    stateNotifs := [], errNotifs := [] }

/-- A fetch oracle whose first two attempts return HTTP 500 and whose later
attempts return HTTP 200 (the scenario from the spec). -/
def demoFetchOracle : Nat → WH.WAttempt :=
  fun k => if k < 2 then WH.WAttempt.status 500 else WH.WAttempt.status 200

/-- A disconnected webhook-transport state. -/
def demoWHOff : WH.WHState := { demoWH with state := TransportState.disconnected }

/-- A client with two handlers on the reserved state-change type: the first
one throws, the second one is well behaved. -/
def stateChangeDemo : ClientState :=
  clientOn reservedStateType (HEntry.plain 2 false)
    (clientOn reservedStateType (HEntry.plain 1 true) emptyClient)

end Talon

namespace Talon.WS

theorem setState_state (s : TransportState) (st : WSState) :
    (setState s st).state = s := by
  unfold setState
  split
  · next h => exact h
  · rfl

theorem setState_autoReconnect (s : TransportState) (st : WSState) :
    (setState s st).autoReconnect = st.autoReconnect := by
  unfold setState; split <;> rfl

theorem setState_reconnectDelay (s : TransportState) (st : WSState) :
    (setState s st).reconnectDelay = st.reconnectDelay := by
  unfold setState; split <;> rfl

theorem setState_maxReconnectAttempts (s : TransportState) (st : WSState) :
    (setState s st).maxReconnectAttempts = st.maxReconnectAttempts := by
  unfold setState; split <;> rfl

theorem setState_reconnectAttempts (s : TransportState) (st : WSState) :
    (setState s st).reconnectAttempts = st.reconnectAttempts := by
  unfold setState; split <;> rfl

theorem setState_reconnectTimeout (s : TransportState) (st : WSState) :
    (setState s st).reconnectTimeout = st.reconnectTimeout := by
  unfold setState; split <;> rfl

theorem setState_wsAttached (s : TransportState) (st : WSState) :
    (setState s st).wsAttached = st.wsAttached := by
  unfold setState; split <;> rfl

theorem setState_messageQueue (s : TransportState) (st : WSState) :
    (setState s st).messageQueue = st.messageQueue := by
  unfold setState; split <;> rfl

theorem setState_wire (s : TransportState) (st : WSState) :
    (setState s st).wire = st.wire := by
  unfold setState; split <;> rfl

theorem setState_attemptLog (s : TransportState) (st : WSState) :
    (setState s st).attemptLog = st.attemptLog := by
  unfold setState; split <;> rfl

theorem setState_errNotifs (s : TransportState) (st : WSState) :
    (setState s st).errNotifs = st.errNotifs := by
  unfold setState; split <;> rfl

theorem send_fst_fields (oracle : OutboundMessage → Except String Unit)
    (st : WSState) (m : OutboundMessage) :
    ((send oracle st m).1).state = st.state ∧
    ((send oracle st m).1).wsAttached = st.wsAttached ∧
    ((send oracle st m).1).reconnectAttempts = st.reconnectAttempts := by
  unfold send
  split
  · simp
  · cases h : oracle m <;> simp [h, emitError]

theorem foldl_flushOne_reconnectAttempts
    (oracle : OutboundMessage → Except String Unit) (q : List OutboundMessage) :
    ∀ s : WSState,
      (List.foldl (flushOne oracle) s q).reconnectAttempts = s.reconnectAttempts := by
  induction q with
  | nil => intro s; rfl
  | cons m rest ih =>
      intro s
      have h := (send_fst_fields oracle s m).2.2
      simpa [flushOne, h] using ih ((send oracle s m).1)

theorem flush_reconnectAttempts (oracle : OutboundMessage → Except String Unit)
    (st : WSState) :
    (flushMessageQueue oracle st).reconnectAttempts = st.reconnectAttempts := by
  unfold flushMessageQueue
  split
  · rfl
  · exact foldl_flushOne_reconnectAttempts oracle st.messageQueue _

theorem connectCall_reconnectAttempts (st : WSState) :
    (connectCall st).reconnectAttempts = st.reconnectAttempts := by
  unfold connectCall
  split
  · rfl
  · simp [setState_reconnectAttempts]

theorem foldl_flushOne_spec (oracle : OutboundMessage → Except String Unit)
    (q : List OutboundMessage) :
    ∀ s : WSState, s.state = TransportState.connected → s.wsAttached = true →
      (q.foldl (flushOne oracle) s).state = TransportState.connected ∧
      (q.foldl (flushOne oracle) s).wsAttached = true ∧
      (q.foldl (flushOne oracle) s).messageQueue = s.messageQueue ∧
      (q.foldl (flushOne oracle) s).wire = s.wire ++ q.filter (sendOk oracle) ∧
      (q.foldl (flushOne oracle) s).attemptLog = s.attemptLog ++ q := by
  induction q with
  | nil => intro s h1 h2; simp [h1, h2]
  | cons m rest ih =>
      intro s h1 h2
      cases horc : oracle m with
      | ok v =>
          have hko : sendOk oracle m = true := by simp [sendOk, horc]
          have hstep : flushOne oracle s m =
              { s with wire := s.wire ++ [m], attemptLog := s.attemptLog ++ [m] } := by
            simp [flushOne, send, h1, h2, horc]
          rw [List.foldl_cons, hstep]
          have hr := ih { s with wire := s.wire ++ [m], attemptLog := s.attemptLog ++ [m] }
            h1 h2
          refine ⟨hr.1, hr.2.1, hr.2.2.1, ?_, ?_⟩
          · rw [hr.2.2.2.1]
            simp [List.filter_cons, hko]
          · rw [hr.2.2.2.2]
            simp
      | error e =>
          have hko : sendOk oracle m = false := by simp [sendOk, horc]
          have hstep : flushOne oracle s m =
              { s with attemptLog := s.attemptLog ++ [m],
                       errNotifs := s.errNotifs ++ s.errorHandlers.map (fun h => (h, e)) } := by
            simp [flushOne, send, h1, h2, horc, emitError]
          rw [List.foldl_cons, hstep]
          have hr := ih { s with attemptLog := s.attemptLog ++ [m],
                                 errNotifs := s.errNotifs ++ s.errorHandlers.map (fun h => (h, e)) }
            h1 h2
          refine ⟨hr.1, hr.2.1, hr.2.2.1, ?_, ?_⟩
          · rw [hr.2.2.2.1]
            simp [List.filter_cons, hko]
          · rw [hr.2.2.2.2]
            simp

theorem flush_spec (oracle : OutboundMessage → Except String Unit) (st : WSState)
    (h1 : st.state = TransportState.connected) (h2 : st.wsAttached = true) :
    (flushMessageQueue oracle st).messageQueue = [] ∧
    (flushMessageQueue oracle st).wire =
      st.wire ++ st.messageQueue.filter (sendOk oracle) ∧
    (flushMessageQueue oracle st).attemptLog = st.attemptLog ++ st.messageQueue := by
  unfold flushMessageQueue
  split
  · next hq => simp [hq]
  · next hq =>
      have h := foldl_flushOne_spec oracle st.messageQueue
        { st with messageQueue := [] } h1 h2
      exact ⟨by rw [h.2.2.1], by rw [h.2.2.2.1], by rw [h.2.2.2.2]⟩

end Talon.WS

namespace Talon

/-- Claim C3: for the socket transport with auto-reconnect enabled and no
timer already pending, an unexpected closure schedules a reconnect exactly
when the attempt limit is 0 (unlimited) or the attempts made so far are
below the limit, with delay `reconnectDelay * 2 ^ attempts` (no cap) and the
state set to `reconnecting`; otherwise the state settles to `disconnected`
with no timer armed.  The attempt counter is incremented when the reconnect
timer fires and reset to 0 by a successful connection (`onopen`). -/
theorem socket_reconnect_backoff :
    (∀ st : WS.WSState, st.autoReconnect = true → st.reconnectTimeout = none →
      ((st.maxReconnectAttempts = 0 ∨ st.reconnectAttempts < st.maxReconnectAttempts) →
        (WS.handleDisconnect st).state = TransportState.reconnecting ∧
        (WS.handleDisconnect st).reconnectTimeout =
          some (st.reconnectDelay * 2 ^ st.reconnectAttempts)) ∧
      (¬ (st.maxReconnectAttempts = 0 ∨ st.reconnectAttempts < st.maxReconnectAttempts) →
        (WS.handleDisconnect st).state = TransportState.disconnected ∧
        (WS.handleDisconnect st).reconnectTimeout = none)) ∧
    (∀ (st : WS.WSState) (d : Nat), st.reconnectTimeout = some d →
      (WS.timerFire st).reconnectAttempts = st.reconnectAttempts + 1) ∧
    (∀ (oracle : OutboundMessage → Except String Unit) (st : WS.WSState),
      (WS.onOpen oracle st).reconnectAttempts = 0) := by
  refine ⟨?_, ?_, ?_⟩
  · intro st hauto htimer
    constructor
    · intro hbudget
      unfold WS.handleDisconnect
      rw [if_pos ⟨hauto, hbudget⟩]
      unfold WS.scheduleReconnect
      refine ⟨?_, ?_⟩
      · simp [WS.setState_state]
      · simp [WS.setState_reconnectDelay, WS.setState_reconnectAttempts]
    · intro hbudget
      unfold WS.handleDisconnect
      rw [if_neg (fun hc => hbudget hc.2)]
      refine ⟨WS.setState_state _ _, ?_⟩
      rw [WS.setState_reconnectTimeout]
      exact htimer
  · intro st d htimer
    simp only [WS.timerFire, htimer]
    rw [WS.connectCall_reconnectAttempts]
  · intro oracle st
    simp only [WS.onOpen]
    rw [WS.flush_reconnectAttempts]

/-- Witness for `socket_reconnect_backoff`: a transport with one attempt
made, a budget of two and base delay 1000 ms schedules the retry after
1000 * 2 = 2000 ms in state `reconnecting`. -/
theorem socket_reconnect_backoff_witness :
    demoWS3.autoReconnect = true ∧ demoWS3.reconnectTimeout = none ∧
    (WS.handleDisconnect demoWS3).state = TransportState.reconnecting ∧
    (WS.handleDisconnect demoWS3).reconnectTimeout = some 2000 := by
  have h := ((socket_reconnect_backoff.1 demoWS3 rfl rfl).1 (by decide))
  exact ⟨rfl, rfl, h.1, h.2⟩

/-- Claim C4: when the socket transport enters `connected` (the `onopen`
callback), the whole message-queue snapshot is drained in original FIFO
insertion order with exactly one send attempt per entry (`attemptLog` gains
the queue itself, in order), the queue is left empty, and an entry whose
send fails is dropped: only the accepted entries reach the wire, and
nothing is retried or re-queued. -/
theorem socket_flush_on_connect (oracle : OutboundMessage → Except String Unit)
    (st : WS.WSState) (hws : st.wsAttached = true) :
    (WS.onOpen oracle st).messageQueue = [] ∧
    (WS.onOpen oracle st).wire =
      st.wire ++ st.messageQueue.filter (WS.sendOk oracle) ∧
    (WS.onOpen oracle st).attemptLog = st.attemptLog ++ st.messageQueue := by
  have hstate : ({ WS.setState TransportState.connected st with
      reconnectAttempts := 0 } : WS.WSState).state = TransportState.connected := by
    simp [WS.setState_state]
  have hatt : ({ WS.setState TransportState.connected st with
      reconnectAttempts := 0 } : WS.WSState).wsAttached = true := by
    simp [WS.setState_wsAttached, hws]
  have h := WS.flush_spec oracle
    { WS.setState TransportState.connected st with reconnectAttempts := 0 }
    hstate hatt
  simp only [WS.onOpen]
  refine ⟨h.1, ?_, ?_⟩
  · rw [h.2.1]
    simp [WS.setState_wire, WS.setState_messageQueue]
  · rw [h.2.2]
    simp [WS.setState_attemptLog, WS.setState_messageQueue]

/-- Witness for `socket_flush_on_connect`: three queued messages, the write
oracle rejecting the second; after `onopen` the queue is empty, the wire
holds the first and third in order, and exactly three send attempts were
made. -/
theorem socket_flush_on_connect_witness :
    demoWS.wsAttached = true ∧
    (WS.onOpen demoWriteOracle demoWS).messageQueue = [] ∧
    (WS.onOpen demoWriteOracle demoWS).wire =
      demoWS.wire ++ demoWS.messageQueue.filter (WS.sendOk demoWriteOracle) ∧
    (WS.onOpen demoWriteOracle demoWS).attemptLog =
      demoWS.attemptLog ++ demoWS.messageQueue :=
  ⟨rfl, socket_flush_on_connect demoWriteOracle demoWS rfl⟩

/-- Claim C6: `WebSocketTransport.send` while not `connected` appends the
message to the in-memory queue and returns without error; while `connected`
(with an attached socket), a serialization/write exception is emitted to
every registered error observer and also propagated to the caller. -/
theorem socket_send_queue_or_throw (oracle : OutboundMessage → Except String Unit)
    (st : WS.WSState) (m : OutboundMessage) :
    (st.state ≠ TransportState.connected →
      WS.send oracle st m =
        ({ st with messageQueue := st.messageQueue ++ [m] }, none)) ∧
    (st.state = TransportState.connected → st.wsAttached = true →
      ∀ e, oracle m = Except.error e →
        (WS.send oracle st m).2 = some e ∧
        ((WS.send oracle st m).1).errNotifs =
          st.errNotifs ++ st.errorHandlers.map (fun h => (h, e))) := by
  constructor
  · intro hns
    unfold WS.send
    rw [if_pos (Or.inl hns)]
  · intro hc hatt e herr
    have hcond : ¬ (st.state ≠ TransportState.connected ∨ st.wsAttached = false) := by
      simp [hc, hatt]
    constructor
    · simp [WS.send, hcond, herr]
    · simp [WS.send, hcond, herr, WS.emitError]

/-- Witness for `socket_send_queue_or_throw`: a disconnected transport
queues the message, and a connected transport whose write oracle rejects
the message throws and notifies error observer 20. -/
theorem socket_send_queue_or_throw_witness :
    demoWS6.state ≠ TransportState.connected ∧
    WS.send demoWriteOracle demoWS6 (demoMsg "x" 9) =
      ({ demoWS6 with messageQueue := demoWS6.messageQueue ++ [demoMsg "x" 9] }, none) ∧
    demoWS6b.state = TransportState.connected ∧ demoWS6b.wsAttached = true ∧
    demoWriteOracle (demoMsg "y" 2) = Except.error "write failed" ∧
    (WS.send demoWriteOracle demoWS6b (demoMsg "y" 2)).2 = some "write failed" ∧
    ((WS.send demoWriteOracle demoWS6b (demoMsg "y" 2)).1).errNotifs =
      demoWS6b.errNotifs ++ demoWS6b.errorHandlers.map (fun h => (h, "write failed")) := by
  have h1 := (socket_send_queue_or_throw demoWriteOracle demoWS6 (demoMsg "x" 9)).1
    (by decide)
  have h2 := (socket_send_queue_or_throw demoWriteOracle demoWS6b (demoMsg "y" 2)).2
    rfl rfl "write failed" rfl
  exact ⟨by decide, h1, rfl, rfl, rfl, h2.1, h2.2⟩

theorem post_disconnect_invariant (evs : List WS.PostEv) :
    ∀ st : WS.WSState, st.state = TransportState.disconnected →
      st.reconnectTimeout = none → st.autoReconnect = false →
      (evs.foldl WS.postStep st).state = TransportState.disconnected ∧
      (evs.foldl WS.postStep st).reconnectTimeout = none ∧
      (evs.foldl WS.postStep st).autoReconnect = false := by
  induction evs with
  | nil => intro st h1 h2 h3; exact ⟨h1, h2, h3⟩
  | cons ev rest ih =>
      intro st h1 h2 h3
      rw [List.foldl_cons]
      cases ev with
      | closeEv =>
          have hstep : WS.postStep st WS.PostEv.closeEv =
              WS.setState TransportState.disconnected { st with wsAttached := false } := by
            simp [WS.postStep, WS.handleDisconnect, h3]
          rw [hstep]
          refine ih _ (WS.setState_state _ _) ?_ ?_
          · rw [WS.setState_reconnectTimeout]; exact h2
          · rw [WS.setState_autoReconnect]; exact h3
      | timerEv =>
          have hstep : WS.postStep st WS.PostEv.timerEv = st := by
            simp [WS.postStep, WS.timerFire, h2]
          rw [hstep]
          exact ih st h1 h2 h3

/-- Claim C7: `WebSocketTransport.disconnect` is a synchronous total
operation that leaves the state `disconnected`, cancels any pending
reconnect timer, drops the socket, and disables auto-reconnect; and after
it, under any sequence of the events that can still occur (a close callback
of the old socket, a timer firing), the state stays `disconnected`, no
timer is ever pending, and auto-reconnect stays disabled — so no reconnect
attempt ever happens. -/
theorem socket_disconnect_final (st : WS.WSState) (evs : List WS.PostEv) :
    (WS.disconnect st).state = TransportState.disconnected ∧
    (WS.disconnect st).reconnectTimeout = none ∧
    (WS.disconnect st).autoReconnect = false ∧
    (WS.disconnect st).wsAttached = false ∧
    (evs.foldl WS.postStep (WS.disconnect st)).state = TransportState.disconnected ∧
    (evs.foldl WS.postStep (WS.disconnect st)).reconnectTimeout = none ∧
    (evs.foldl WS.postStep (WS.disconnect st)).autoReconnect = false := by
  have h1 : (WS.disconnect st).state = TransportState.disconnected :=
    WS.setState_state _ _
  have h2 : (WS.disconnect st).reconnectTimeout = none := by
    unfold WS.disconnect
    rw [WS.setState_reconnectTimeout]
  have h3 : (WS.disconnect st).autoReconnect = false := by
    unfold WS.disconnect
    rw [WS.setState_autoReconnect]
  have h4 : (WS.disconnect st).wsAttached = false := by
    unfold WS.disconnect
    rw [WS.setState_wsAttached]
  have htr := post_disconnect_invariant evs (WS.disconnect st) h1 h2 h3
  exact ⟨h1, h2, h3, h4, htr.1, htr.2.1, htr.2.2⟩

theorem count_map_pair (s : TransportState) (l : List Nat) (h0 : Nat) :
    (l.map (fun h => (h, s))).count (h0, s) = l.count h0 := by
  induction l with
  | nil => rfl
  | cons a rest ih => simp [List.count_cons, ih, Prod.ext_iff]

/-- Claim C8: each transport instance carries a single current state (one
field of the model), and `setState` on either transport suppresses the
no-op transition (same state: no observer notified, nothing changed) while
a real change updates the state and notifies each registered state-change
observer exactly once, in registration order. -/
theorem set_state_exactly_once (s : TransportState) (stW : WS.WSState)
    (stH : WH.WHState) :
    (stW.state = s → WS.setState s stW = stW) ∧
    (stW.state ≠ s →
      (WS.setState s stW).state = s ∧
      (WS.setState s stW).stateNotifs =
        stW.stateNotifs ++ stW.stateHandlers.map (fun h => (h, s)) ∧
      ∀ h0 : Nat,
        (stW.stateHandlers.map (fun h => (h, s))).count (h0, s) =
          stW.stateHandlers.count h0) ∧
    (stH.state = s → WH.setState s stH = stH) ∧
    (stH.state ≠ s →
      (WH.setState s stH).state = s ∧
      (WH.setState s stH).stateNotifs =
        stH.stateNotifs ++ stH.stateHandlers.map (fun h => (h, s)) ∧
      ∀ h0 : Nat,
        (stH.stateHandlers.map (fun h => (h, s))).count (h0, s) =
          stH.stateHandlers.count h0) := by
  refine ⟨?_, ?_, ?_, ?_⟩
  · intro h
    unfold WS.setState
    rw [if_pos h]
  · intro h
    unfold WS.setState
    rw [if_neg h]
    exact ⟨rfl, rfl, fun h0 => count_map_pair s stW.stateHandlers h0⟩
  · intro h
    unfold WH.setState
    rw [if_pos h]
  · intro h
    unfold WH.setState
    rw [if_neg h]
    exact ⟨rfl, rfl, fun h0 => count_map_pair s stH.stateHandlers h0⟩

/-- Witness for `set_state_exactly_once`: a real change on the socket
transport notifies observer 10 once; `setState` to the current state is the
identity; the webhook transport behaves the same on a real change. -/
theorem set_state_exactly_once_witness :
    demoWS.state ≠ TransportState.connected ∧
    (WS.setState TransportState.connected demoWS).state =
      TransportState.connected ∧
    (WS.setState TransportState.connected demoWS).stateNotifs =
      demoWS.stateNotifs ++
        demoWS.stateHandlers.map (fun h => (h, TransportState.connected)) ∧
    demoWS3.state = TransportState.connected ∧
    WS.setState TransportState.connected demoWS3 = demoWS3 ∧
    demoWHOff.state ≠ TransportState.connected ∧
    (WH.setState TransportState.connected demoWHOff).state =
      TransportState.connected := by
  have hW := (set_state_exactly_once TransportState.connected demoWS demoWHOff).2.1
    (by decide)
  have hWnop :=
    (set_state_exactly_once TransportState.connected demoWS3 demoWH).1 rfl
  have hH :=
    (set_state_exactly_once TransportState.connected demoWS demoWHOff).2.2.2
    (by decide)
  exact ⟨by decide, hW.1, hW.2.1, rfl, hWnop, by decide, hH.1⟩

theorem sendRequest_cases (a : WH.WAttempt) :
    WH.sendRequest a = Except.ok () ∨
    WH.sendRequest a = Except.error (WH.attemptError a) := by
  cases a with
  | status c =>
      by_cases hc : 200 ≤ c ∧ c ≤ 299
      · left; simp [WH.sendRequest, hc]
      · right; simp [WH.sendRequest, hc]
  | timeoutAbort => right; rfl
  | netFail m => right; rfl

theorem reqOk_true (oracle : Nat → WH.WAttempt) (k : Nat)
    (h : WH.reqOk oracle k = true) :
    WH.sendRequest (oracle k) = Except.ok () := by
  rcases sendRequest_cases (oracle k) with hc | hc
  · exact hc
  · unfold WH.reqOk at h
    rw [hc] at h
    simp at h

theorem reqOk_false (oracle : Nat → WH.WAttempt) (k : Nat)
    (h : WH.reqOk oracle k = false) :
    WH.sendRequest (oracle k) = Except.error (WH.attemptError (oracle k)) := by
  rcases sendRequest_cases (oracle k) with hc | hc
  · unfold WH.reqOk at h
    rw [hc] at h
    simp at h
  · exact hc

theorem attemptLoop_all_fail (oracle : Nat → WH.WAttempt) (d : Nat) :
    ∀ (r a : Nat), 0 < r → (∀ k, k < r → WH.reqOk oracle (a + k) = false) →
      (WH.attemptLoop oracle d a r).1 = r ∧
      (WH.attemptLoop oracle d a r).2.1 = false ∧
      (WH.attemptLoop oracle d a r).2.2.1 =
        some (WH.attemptError (oracle (a + r - 1))) := by
  intro r
  induction r with
  | zero => intro a h; omega
  | succ rem ih =>
      intro a _ hfail
      have h0 : WH.reqOk oracle (a + 0) = false := hfail 0 (by omega)
      have hs := reqOk_false oracle (a + 0) h0
      rw [Nat.add_zero] at hs
      by_cases hr : rem = 0
      · subst hr
        simp [WH.attemptLoop, hs]
      · have hrec := ih (a + 1) (Nat.pos_of_ne_zero hr)
          (fun k hk => by
            have h1 := hfail (k + 1) (by omega)
            rw [show a + (k + 1) = a + 1 + k by omega] at h1
            exact h1)
        simp only [WH.attemptLoop, hs, if_neg hr]
        refine ⟨?_, hrec.2.1, ?_⟩
        · rw [hrec.1]
        · rw [hrec.2.2]
          have heq : a + 1 + rem - 1 = a + (rem + 1) - 1 := by omega
          rw [heq]

theorem attemptLoop_first_success (oracle : Nat → WH.WAttempt) (d : Nat) :
    ∀ (k r a : Nat), k < r → WH.reqOk oracle (a + k) = true →
      (∀ j, j < k → WH.reqOk oracle (a + j) = false) →
      (WH.attemptLoop oracle d a r).1 = k + 1 ∧
      (WH.attemptLoop oracle d a r).2.1 = true ∧
      (WH.attemptLoop oracle d a r).2.2.1 = none := by
  intro k
  induction k with
  | zero =>
      intro r a hk hok _
      obtain ⟨rem, rfl⟩ : ∃ rem, r = rem + 1 := ⟨r - 1, by omega⟩
      have hs := reqOk_true oracle (a + 0) hok
      rw [Nat.add_zero] at hs
      simp [WH.attemptLoop, hs]
  | succ k ih =>
      intro r a hk hok hfail
      obtain ⟨rem, rfl⟩ : ∃ rem, r = rem + 1 := ⟨r - 1, by omega⟩
      have h0 : WH.reqOk oracle (a + 0) = false := hfail 0 (by omega)
      have hs := reqOk_false oracle (a + 0) h0
      rw [Nat.add_zero] at hs
      have hr : rem ≠ 0 := by omega
      have hrec := ih rem (a + 1) (by omega)
        (by
          rw [show a + 1 + k = a + (k + 1) by omega]
          exact hok)
        (fun j hj => by
          rw [show a + 1 + j = a + (j + 1) by omega]
          exact hfail (j + 1) (by omega))
      simp only [WH.attemptLoop, hs, if_neg hr]
      exact ⟨by rw [hrec.1], hrec.2.1, hrec.2.2⟩

theorem whSend_all_fail (oracle : Nat → WH.WAttempt) (st : WH.WHState)
    (hc : st.state = TransportState.connected)
    (hfail : ∀ k, k < (if st.retry then st.maxRetries + 1 else 1) →
      WH.reqOk oracle k = false) :
    (WH.send oracle st).attemptsUsed =
      (if st.retry then st.maxRetries + 1 else 1) ∧
    (WH.send oracle st).success = false ∧
    (WH.send oracle st).thrown =
      some (WH.attemptError
        (oracle ((if st.retry then st.maxRetries + 1 else 1) - 1))) ∧
    ((WH.send oracle st).st).errNotifs =
      st.errNotifs ++ st.errorHandlers.map (fun h =>
        (h, WH.attemptError
          (oracle ((if st.retry then st.maxRetries + 1 else 1) - 1)))) := by
  have hA : 0 < (if st.retry then st.maxRetries + 1 else 1) := by split <;> omega
  have hl := attemptLoop_all_fail oracle st.retryDelay
    (if st.retry then st.maxRetries + 1 else 1) 0 hA
    (fun k hk => by simpa using hfail k hk)
  rw [Nat.zero_add] at hl
  have hns : ¬ st.state ≠ TransportState.connected := by simp [hc]
  simp only [WH.send, if_neg hns]
  rw [hl.1, hl.2.1, hl.2.2]
  simp [WH.emitError]

theorem whSend_first_success (oracle : Nat → WH.WAttempt) (st : WH.WHState)
    (hc : st.state = TransportState.connected) (k : Nat)
    (hk : k < (if st.retry then st.maxRetries + 1 else 1))
    (hok : WH.reqOk oracle k = true)
    (hmin : ∀ j, j < k → WH.reqOk oracle j = false) :
    (WH.send oracle st).attemptsUsed = k + 1 ∧
    (WH.send oracle st).success = true ∧
    (WH.send oracle st).thrown = none := by
  have hl := attemptLoop_first_success oracle st.retryDelay k
    (if st.retry then st.maxRetries + 1 else 1) 0 hk
    (by simpa using hok) (fun j hj => by simpa using hmin j hj)
  have hns : ¬ st.state ≠ TransportState.connected := by simp [hc]
  simp only [WH.send, if_neg hns]
  rw [hl.1, hl.2.1, hl.2.2]
  simp

/-- Claim C5: fire-and-forget `send` throws immediately with zero attempts
when the transport is not `connected`; when connected it makes at most
`1 + maxRetries` attempts with retry enabled and exactly one with retry
disabled, returns as soon as one attempt yields a 2xx status (non-2xx and
timeouts count as retryable failures), and when every attempt fails, it
emits the last attempt's error to every error observer and throws that same
error to the caller. -/
theorem webhook_send_retry (oracle : Nat → WH.WAttempt) (st : WH.WHState) :
    (st.state ≠ TransportState.connected →
      WH.send oracle st =
        { st := st, attemptsUsed := 0, success := false,
          thrown := some "Transport not connected", delays := [] }) ∧
    (st.state = TransportState.connected →
      (WH.send oracle st).attemptsUsed ≤
        (if st.retry then st.maxRetries + 1 else 1) ∧
      (st.retry = false → (WH.send oracle st).attemptsUsed = 1) ∧
      (∀ k, k < (if st.retry then st.maxRetries + 1 else 1) →
        WH.reqOk oracle k = true → (∀ j, j < k → WH.reqOk oracle j = false) →
        (WH.send oracle st).success = true ∧
        (WH.send oracle st).attemptsUsed = k + 1 ∧
        (WH.send oracle st).thrown = none) ∧
      ((∀ k, k < (if st.retry then st.maxRetries + 1 else 1) →
          WH.reqOk oracle k = false) →
        (WH.send oracle st).success = false ∧
        (WH.send oracle st).thrown =
          some (WH.attemptError
            (oracle ((if st.retry then st.maxRetries + 1 else 1) - 1))) ∧
        ((WH.send oracle st).st).errNotifs =
          st.errNotifs ++ st.errorHandlers.map (fun h =>
            (h, WH.attemptError
              (oracle ((if st.retry then st.maxRetries + 1 else 1) - 1)))))) := by
  constructor
  · intro hns
    unfold WH.send
    rw [if_pos hns]
  · intro hc
    refine ⟨?_, ?_, ?_, ?_⟩
    · by_cases hall : ∀ k, k < (if st.retry then st.maxRetries + 1 else 1) →
          WH.reqOk oracle k = false
      · rw [(whSend_all_fail oracle st hc hall).1]
      · push_neg at hall
        obtain ⟨k, hkA, hkne⟩ := hall
        have hex : ∃ j, WH.reqOk oracle j = true ∧
            j < (if st.retry then st.maxRetries + 1 else 1) :=
          ⟨k, by simpa using hkne, hkA⟩
        classical
        have hspec := Nat.find_spec hex
        have hmin : ∀ j, j < Nat.find hex → WH.reqOk oracle j = false := by
          intro j hj
          have h1 := Nat.find_min hex hj
          by_cases hb : WH.reqOk oracle j = true
          · exact absurd ⟨hb, by omega⟩ h1
          · simpa using hb
        have h := whSend_first_success oracle st hc (Nat.find hex) hspec.2
          hspec.1 hmin
        rw [h.1]
        omega
    · intro hretry
      have hA1 : (if st.retry then st.maxRetries + 1 else 1) = 1 := by
        rw [hretry]; rfl
      by_cases h0 : WH.reqOk oracle 0 = true
      · have h := whSend_first_success oracle st hc 0 (by omega)
          h0 (by omega)
        exact h.1
      · have hfail : ∀ k, k < (if st.retry then st.maxRetries + 1 else 1) →
            WH.reqOk oracle k = false := by
          intro k hk
          rw [hA1] at hk
          have hk0 : k = 0 := by omega
          subst hk0
          simpa using h0
        rw [(whSend_all_fail oracle st hc hfail).1, hA1]
    · intro k hk hok hmin
      have h := whSend_first_success oracle st hc k hk hok hmin
      exact ⟨h.2.1, h.1, h.2.2⟩
    · intro hall
      have h := whSend_all_fail oracle st hc hall
      exact ⟨h.2.1, h.2.2.1, h.2.2.2⟩

/-- Witness for `webhook_send_retry`: with `retry = true`, `maxRetries = 3`
and a fetch harness failing the first two attempts with HTTP 500 then
succeeding with HTTP 200, `send` succeeds with exactly 3 attempts; and on a
disconnected transport `send` throws immediately with zero attempts. -/
theorem webhook_send_retry_witness :
    demoWH.state = TransportState.connected ∧
    (WH.send demoFetchOracle demoWH).success = true ∧
    (WH.send demoFetchOracle demoWH).attemptsUsed = 3 ∧
    demoWHOff.state ≠ TransportState.connected ∧
    (WH.send demoFetchOracle demoWHOff).attemptsUsed = 0 := by
  have h := ((webhook_send_retry demoFetchOracle demoWH).2 rfl).2.2.1 2
    (by decide) (by decide) (by decide)
  have hoff := (webhook_send_retry demoFetchOracle demoWHOff).1 (by decide)
  exact ⟨rfl, h.1, h.2.1, by decide, by rw [hoff]⟩

theorem clientSteps_dead (ops : List ClientOp) :
    ∀ (cs : ClientState) (acc : List Nat),
      cs.msgSub = false → cs.stateSub = false → cs.errSub = false →
      (ops.foldl clientStep (cs, acc)).1.msgSub = false ∧
      (ops.foldl clientStep (cs, acc)).1.stateSub = false ∧
      (ops.foldl clientStep (cs, acc)).1.errSub = false ∧
      (ops.foldl clientStep (cs, acc)).2 = acc := by
  induction ops with
  | nil => intro cs acc h1 h2 h3; exact ⟨h1, h2, h3, rfl⟩
  | cons op rest ih =>
      intro cs acc h1 h2 h3
      rw [List.foldl_cons]
      cases op with
      | onEv t e => exact ih (clientOn t e cs) acc h1 h2 h3
      | offEv t => exact ih (clientOff t cs) acc h1 h2 h3
      | connectEv => exact ih cs acc h1 h2 h3
      | inboundEv m =>
          have hstep : clientStep (cs, acc) (ClientOp.inboundEv m) = (cs, acc) := by
            simp [clientStep, h1]
          rw [hstep]
          exact ih cs acc h1 h2 h3
      | stateEv =>
          have hstep : clientStep (cs, acc) ClientOp.stateEv = (cs, acc) := by
            simp [clientStep, h2]
          rw [hstep]
          exact ih cs acc h1 h2 h3
      | errorEv =>
          have hstep : clientStep (cs, acc) ClientOp.errorEv = (cs, acc) := by
            simp [clientStep, h3]
          rw [hstep]
          exact ih cs acc h1 h2 h3

/-- Claim C10: `TalonClient.disconnect` clears the event-handler map and
removes the client's message/state/error subscriptions on the transport;
nothing ever re-creates those subscriptions (they are made only in the
constructor), so under every later operation sequence — registrations, a
new `connect()`, inbound messages, state changes, errors — no handler
registered via `on`/`once` is ever invoked again: the invocation log stays
empty. -/
theorem client_disconnect_dead (cs : ClientState) (ops : List ClientOp) :
    (clientDisconnect cs).eventHandlers = [] ∧
    (clientDisconnect cs).msgSub = false ∧
    (clientDisconnect cs).stateSub = false ∧
    (clientDisconnect cs).errSub = false ∧
    (ops.foldl clientStep (clientDisconnect cs, [])).1.msgSub = false ∧
    (ops.foldl clientStep (clientDisconnect cs, [])).1.stateSub = false ∧
    (ops.foldl clientStep (clientDisconnect cs, [])).1.errSub = false ∧
    (ops.foldl clientStep (clientDisconnect cs, [])).2 = [] := by
  have h := clientSteps_dead ops (clientDisconnect cs) [] rfl rfl rfl
  exact ⟨rfl, rfl, rfl, rfl, h.1, h.2.1, h.2.2.1, h.2.2.2⟩

theorem handleMessage_no_handlers (m : InboundMessage) (cs : ClientState)
    (h : cs.eventHandlers = []) : handleMessage m cs = (cs, []) := by
  unfold handleMessage
  rw [h]
  rfl

theorem deliverAll_no_handlers (msgs : List InboundMessage) :
    ∀ cs : ClientState, cs.eventHandlers = [] →
      (deliverAll msgs cs).2 = [] := by
  induction msgs with
  | nil => intro cs h; rfl
  | cons m rest ih =>
      intro cs h
      simp only [deliverAll, handleMessage_no_handlers m cs h]
      exact ih cs h

theorem deliverAll_once_state (t : String) (hid : Nat) :
    ∀ msgs : List InboundMessage,
      (deliverAll msgs
        ({ eventHandlers := [(t, [HEntry.onceWrap hid false])],
           msgSub := true, stateSub := true, errSub := true } : ClientState)).2 =
      (match msgs.find? (fun m => m.type == t) with
       | some m => [(hid, m.data)]
       | none => []) := by
  intro msgs
  induction msgs with
  | nil => rfl
  | cons m rest ih =>
      by_cases hmt : m.type = t
      · have hm : handleMessage m
            ({ eventHandlers := [(t, [HEntry.onceWrap hid false])],
               msgSub := true, stateSub := true, errSub := true } : ClientState) =
            (({ eventHandlers := [], msgSub := true, stateSub := true,
                errSub := true } : ClientState), [(hid, m.data)]) := by
          simp [handleMessage, lookupType, hmt, runDispatch, clientUnsub,
            deleteType, setType, List.find?]
        simp only [deliverAll, hm]
        rw [deliverAll_no_handlers rest _ rfl]
        simp [List.find?_cons, hmt]
      · have hm : handleMessage m
            ({ eventHandlers := [(t, [HEntry.onceWrap hid false])],
               msgSub := true, stateSub := true, errSub := true } : ClientState) =
            (({ eventHandlers := [(t, [HEntry.onceWrap hid false])],
                msgSub := true, stateSub := true, errSub := true } : ClientState),
             []) := by
          simp [handleMessage, lookupType, List.find?, Ne.symm hmt]
        simp only [deliverAll, hm]
        have hfind : (m.type == t) = false := by
          simp [hmt]
        simp only [List.find?_cons, hfind]
        exact ih

theorem clientOnce_of_empty (t : String) (hid : Nat) (b : Bool) :
    clientOnce t hid b emptyClient =
      { eventHandlers := [(t, [HEntry.onceWrap hid b])],
        msgSub := true, stateSub := true, errSub := true } := by
  simp [clientOnce, clientOn, emptyClient, lookupType, setType, List.find?]

/-- Claim C2, counterexample to the unrestricted statement: a handler
registered with `once` whose invocation throws is NOT unsubscribed — the
wrapper calls the handler first and only unsubscribes afterwards, so the
exception (caught by `handleMessage`) skips the self-unsubscription.  Under
two back-to-back messages of its type the handler is invoked twice, with
both payloads, refuting "h is invoked exactly once". -/
theorem once_throwing_handler_fires_twice :
    (deliverAll [{ type := "t", data := 1 }, { type := "t", data := 2 }]
        (clientOnce "t" 7 true emptyClient)).2 = [(7, 1), (7, 2)] ∧
    ((deliverAll [{ type := "t", data := 1 }, { type := "t", data := 2 }]
        (clientOnce "t" 7 true emptyClient)).2.map Prod.fst).count 7 = 2 := by
  constructor <;> rfl

/-- Claim C2 (amended): for every event type `t` and every handler whose
invocation does not throw, registered via `once(t, h)`: across any sequence
of inbound messages delivered to the client, `h` is invoked exactly once,
with the data payload of the first message of type `t` (and not at all if
no such message arrives) — the wrapper unsubscribes synchronously inside
the first invocation, before any later message is processed. -/
theorem once_fires_exactly_once (t : String) (hid : Nat)
    (msgs : List InboundMessage) :
    (deliverAll msgs (clientOnce t hid false emptyClient)).2 =
      (match msgs.find? (fun m => m.type == t) with
       | some m => [(hid, m.data)]
       | none => []) := by
  rw [clientOnce_of_empty]
  exact deliverAll_once_state t hid msgs

theorem runDispatch_all (t : String) (d : Nat) :
    ∀ (hs : List HEntry) (cs : ClientState),
      (runDispatch t d cs hs).2 = hs.map (fun e => (entryId e, d)) := by
  intro hs
  induction hs with
  | nil => intro cs; rfl
  | cons e rest ih =>
      intro cs
      cases e with
      | plain hid b => simp [runDispatch, entryId, ih]
      | onceWrap hid b =>
          cases b with
          | true => simp [runDispatch, entryId, ih]
          | false => simp [runDispatch, entryId, ih]

theorem notifyStateObs_all :
    ∀ (obs : List TObs) (cs : ClientState),
      (notifyStateObs cs obs).2.1 = obs.map obsId := by
  intro obs
  induction obs with
  | nil => intro cs; rfl
  | cons o rest ih =>
      intro cs
      cases o with
      | ext oid b => simp [notifyStateObs, obsId, ih]
      | client oid => simp [notifyStateObs, obsId, ih]

theorem runReserved_all_ok (t : String) :
    ∀ (hs : List HEntry) (cs : ClientState),
      (∀ x ∈ hs, entryThrows x = false) →
      (runReserved t cs hs).2.1 = hs.map entryId ∧
      (runReserved t cs hs).2.2 = false := by
  intro hs
  induction hs with
  | nil => intro cs _; exact ⟨rfl, rfl⟩
  | cons e rest ih =>
      intro cs h
      have he : entryThrows e = false := h e (by simp)
      have hrest : ∀ x ∈ rest, entryThrows x = false :=
        fun x hx => h x (by simp [hx])
      cases e with
      | plain hid b =>
          have hb : b = false := he
          subst hb
          have hr := ih cs hrest
          simp [runReserved, entryId, hr.1, hr.2]
      | onceWrap hid b =>
          have hb : b = false := he
          subst hb
          have hr := ih (clientUnsub t (HEntry.onceWrap hid false) cs) hrest
          simp [runReserved, entryId, hr.1, hr.2]

theorem runReserved_stops (t : String) :
    ∀ (pre : List HEntry) (e : HEntry) (post : List HEntry) (cs : ClientState),
      (∀ x ∈ pre, entryThrows x = false) → entryThrows e = true →
      (runReserved t cs (pre ++ e :: post)).2.1 =
        pre.map entryId ++ [entryId e] ∧
      (runReserved t cs (pre ++ e :: post)).2.2 = true := by
  intro pre
  induction pre with
  | nil =>
      intro e post cs _ he
      cases e with
      | plain hid b =>
          have hb : b = true := he
          subst hb
          simp [runReserved, entryId]
      | onceWrap hid b =>
          have hb : b = true := he
          subst hb
          simp [runReserved, entryId]
  | cons x rest ih =>
      intro e post cs hpre he
      have hx : entryThrows x = false := hpre x (by simp)
      have hrest : ∀ y ∈ rest, entryThrows y = false :=
        fun y hy => hpre y (by simp [hy])
      cases x with
      | plain hid b =>
          have hb : b = false := hx
          subst hb
          have hr := ih e post cs hrest he
          simp [runReserved, entryId, hr.1, hr.2]
      | onceWrap hid b =>
          have hb : b = false := hx
          subst hb
          have hr := ih e post (clientUnsub t (HEntry.onceWrap hid false) cs)
            hrest he
          simp [runReserved, entryId, hr.1, hr.2]

/-- Claim C1 (amended): exception containment, as the code implements it.
(1) A throwing handler inside the client's message dispatch never prevents
sibling handlers: every registered entry for the type is invoked.
(2) At the transport's observer loop (`setState` with the client
subscribed), a real state change invokes every transport-level observer in
order even if some — including the client's reserved-handler republishing —
throw: the per-observer try/catch contains them, so nothing reaches the
caller.
(3) The client's reserved `_state_change`/`_error` handlers are invoked
without per-handler containment: when none throws, all run; (4) when one
throws, the handlers after it are NOT invoked and the exception escapes the
client's loop (to be swallowed only by the transport's observer loop). -/
theorem handler_exception_containment :
    (∀ (t : String) (d : Nat) (cs : ClientState) (hs : List HEntry),
      (runDispatch t d cs hs).2 = hs.map (fun e => (entryId e, d))) ∧
    (∀ (s cur : TransportState) (obs : List TObs) (cs : ClientState),
      cur ≠ s → (setStateWithClient s cur obs cs).2.2.1 = obs.map obsId) ∧
    (∀ (t : String) (cs : ClientState) (hs : List HEntry),
      (∀ x ∈ hs, entryThrows x = false) →
      (runReserved t cs hs).2.1 = hs.map entryId ∧
      (runReserved t cs hs).2.2 = false) ∧
    (∀ (t : String) (cs : ClientState) (pre : List HEntry) (e : HEntry)
        (post : List HEntry),
      (∀ x ∈ pre, entryThrows x = false) → entryThrows e = true →
      (runReserved t cs (pre ++ e :: post)).2.1 =
        pre.map entryId ++ [entryId e] ∧
      (runReserved t cs (pre ++ e :: post)).2.2 = true) := by
  refine ⟨?_, ?_, ?_, ?_⟩
  · intro t d cs hs
    exact runDispatch_all t d hs cs
  · intro s cur obs cs hne
    unfold setStateWithClient
    rw [if_neg hne]
    exact notifyStateObs_all obs cs
  · intro t cs hs h
    exact runReserved_all_ok t hs cs h
  · intro t cs pre e post hpre he
    exact runReserved_stops t pre e post cs hpre he

/-- Claim C1, counterexample to the claim as stated: two handlers are
subscribed through the client to the reserved type `_state_change`, the
first throwing, the second well behaved.  On a state change the client's
republishing loop (which has no per-handler try/catch) invokes only the
first: handler 2 is registered but never invoked, and the exception escapes
`handleStateChange` — so a throwing reserved-type handler DOES prevent its
remaining sibling handlers from being invoked. -/
theorem reserved_handler_exception_stops_siblings :
    lookupType reservedStateType stateChangeDemo.eventHandlers =
      some [HEntry.plain 1 true, HEntry.plain 2 false] ∧
    (handleStateChange stateChangeDemo).2.1 = [1] ∧
    (handleStateChange stateChangeDemo).2.2 = true ∧
    2 ∉ (handleStateChange stateChangeDemo).2.1 := by
  refine ⟨rfl, rfl, rfl, by decide⟩

/-- Witness for `handler_exception_containment`: a concrete state change
with a throwing external observer, the client (whose reserved handlers
include a throwing one), and a trailing external observer — every
transport-level observer is still invoked; and a reserved-handler list
whose second entry throws stops after that entry. -/
theorem handler_exception_containment_witness :
    TransportState.disconnected ≠ TransportState.connected ∧
    (setStateWithClient TransportState.connected TransportState.disconnected
        [TObs.ext 5 true, TObs.client 0, TObs.ext 6 false]
        stateChangeDemo).2.2.1 = [5, 0, 6] ∧
    (runReserved reservedStateType emptyClient
        [HEntry.plain 1 false, HEntry.plain 2 true, HEntry.plain 3 false]).2.1 =
      [1, 2] := by
  refine ⟨by decide, ?_, ?_⟩
  · have h := handler_exception_containment.2.1 TransportState.connected
      TransportState.disconnected [TObs.ext 5 true, TObs.client 0, TObs.ext 6 false]
      stateChangeDemo (by decide)
    rw [h]
    rfl
  · have h := (handler_exception_containment.2.2.2 reservedStateType emptyClient
      [HEntry.plain 1 false] (HEntry.plain 2 true) [HEntry.plain 3 false]
      (by decide) rfl).1
    simpa using h

/-- Claim C9: a `client.send(e)` call hands exactly one outbound message to
the transport, with `type` the sentinel string "event", `data` the caller's
event object, `id` the generated non-empty string made of the time-based
head and the random suffix, and `timestamp` the wall-clock milliseconds
read at send time. -/
theorem client_send_envelope (nowId nowTs : Nat) (rand : String) (ev : Nat) :
    (clientSend nowId nowTs rand ev).length = 1 ∧
    clientSend nowId nowTs rand ev =
      [{ type := "event", data := ev, id := some (generateId nowId rand),
         timestamp := some nowTs }] ∧
    generateId nowId rand = "msg_" ++ toString nowId ++ "_" ++ rand ∧
    generateId nowId rand ≠ "" := by
  refine ⟨rfl, rfl, rfl, ?_⟩
  intro h
  have h2 : (generateId nowId rand).length = 0 := by rw [h]; rfl
  unfold generateId at h2
  rw [String.length_append, String.length_append, String.length_append] at h2
  have h3 : ("msg_" : String).length = 4 := rfl
  omega

end Talon
